import Mathlib

/-!
Verification of the abuse-mitigation / trust-state engine of the WildID
application (src/security.py, the in-memory `SecurityManager`), with the
request-scoped gate decision that guards the identification endpoint.

Shallow embedding conventions:
* wall-clock times (`time.time()`) are `Int` timestamps passed explicitly;
* Python dicts (`request_counts`, `captcha_sessions`, `trusted_browsers`)
  are association lists `List (String × _)` with first-match lookup,
  in-place replacement on insert, and erasure on `del`;
* randomness in `generate_captcha` (the two operands, the operator, the
  challenge id) is passed in as explicit arguments;
* the Flask session's `browser_fingerprint` (`session.get(...)`, which may
  be absent) is an `Option String` argument;
* `int(user_answer)` — which raises `ValueError` on non-numeric input — is
  modelled by an `Option Int` argument (`none` is the `ValueError` case);
* methods that mutate `self` return the updated `SecurityManager`.
-/

namespace WildID

/-- First-match lookup in an association list: Python `d[k]` / `k in d`. -/
def alookup {α : Type} : List (String × α) → String → Option α
  | [], _ => none
  | (k, v) :: rest, key => if k = key then some v else alookup rest key

/-- Replace the binding of `key` (first occurrence) or append it:
Python `d[k] = v`. -/
def ainsert {α : Type} : List (String × α) → String → α → List (String × α)
  | [], key, v => [(key, v)]
  | (k, w) :: rest, key, v =>
    if k = key then (key, v) :: rest else (k, w) :: ainsert rest key v

/-- Remove every binding of `key`: Python `del d[k]`. -/
def aerase {α : Type} : List (String × α) → String → List (String × α)
  | [], _ => []
  | (k, w) :: rest, key =>
    if k = key then aerase rest key else (k, w) :: aerase rest key

/-- One stored CAPTCHA challenge: the dict
`{'answer': ..., 'timestamp': ..., 'browser_fp': ...}` that
`generate_captcha` places in `self.captcha_sessions`. -/
structure CaptchaData where
  answer : Int
  timestamp : Int
  browser_fp : Option String
deriving DecidableEq, Repr

/-- The dict `generate_captcha` returns to its caller. -/
structure CaptchaResult where
  captcha_id : String
  question : String
  timeout : Int
deriving DecidableEq, Repr

/-- The operator drawn by `random.choice(['+', '-', '*'])`. -/
inductive Operation where
  | add
  | sub
  | mul
deriving DecidableEq, Repr

/-- The mutable state of `SecurityManager` (configuration fields plus the
three in-memory stores). -/
structure SecurityManager where
  rate_limit_window : Int
  max_requests_per_window : Nat
  captcha_timeout : Int
  browser_trust_duration : Int
  request_counts : List (String × List Int)
  captcha_sessions : List (String × CaptchaData)
  trusted_browsers : List (String × Int)
deriving DecidableEq, Repr

/-- `SecurityManager.__init__` with the default environment
(RATE_LIMIT_WINDOW=3600, MAX_REQUESTS_PER_WINDOW=2, CAPTCHA_TIMEOUT=300,
BROWSER_TRUST_DURATION=86400*30) and empty stores. -/
def SecurityManager.init : SecurityManager :=
  { rate_limit_window := 3600
    max_requests_per_window := 2
    captcha_timeout := 300
    browser_trust_duration := 86400 * 30
    request_counts := []
    captcha_sessions := []
    trusted_browsers := [] }

/-- The per-key pass of `_cleanup_old_entries` over `request_counts`: keep
only timestamps inside the window, and drop a key whose list becomes empty. -/
def cleanupRequestCounts (window now : Int) :
    List (String × List Int) → List (String × List Int)
  | [] => []
  | (k, ts) :: rest =>
    let kept := ts.filter (fun t => decide (now - window < t))
    if kept.isEmpty then cleanupRequestCounts window now rest
    else (k, kept) :: cleanupRequestCounts window now rest

/-- `SecurityManager._cleanup_old_entries`: filter rate-limit entries to the
window (deleting emptied keys), delete CAPTCHA sessions past the timeout, and
delete trusted browsers past the trust duration. -/
def SecurityManager.cleanup_old_entries (sm : SecurityManager) (now : Int) :
    SecurityManager :=
  { sm with
    request_counts := cleanupRequestCounts sm.rate_limit_window now sm.request_counts
    captcha_sessions := sm.captcha_sessions.filter
      (fun kv => decide (now - kv.2.timestamp ≤ sm.captcha_timeout))
    trusted_browsers := sm.trusted_browsers.filter
      (fun kv => decide (now - kv.2 ≤ sm.browser_trust_duration)) }

/-- `SecurityManager.check_rate_limit`: clean old entries, default the key to
an empty list, drop requests outside the window, and report whether the
remaining count has reached `max_requests_per_window`. `key` is the rate-limit
key `ip:browser_fp` built by `_get_rate_limit_key`. -/
def SecurityManager.check_rate_limit (sm : SecurityManager) (key : String)
    (now : Int) : Bool × SecurityManager :=
  let sm1 := sm.cleanup_old_entries now
  let cur := (alookup sm1.request_counts key).getD []
  let kept := cur.filter (fun t => decide (now - sm1.rate_limit_window < t))
  let sm2 := { sm1 with request_counts := ainsert sm1.request_counts key kept }
  (decide (sm2.max_requests_per_window ≤ kept.length), sm2)

/-- `SecurityManager.record_request`: append the current time to the key's
request list (creating the list if absent). -/
def SecurityManager.record_request (sm : SecurityManager) (key : String)
    (now : Int) : SecurityManager :=
  let cur := (alookup sm.request_counts key).getD []
  { sm with request_counts := ainsert sm.request_counts key (cur ++ [now]) }

/-- `SecurityManager.is_browser_trusted`: true when the session carries a
fingerprint that is in `trusted_browsers` and its trust timestamp is strictly
younger than `browser_trust_duration`. -/
def SecurityManager.is_browser_trusted (sm : SecurityManager)
    (browser_fp : Option String) (now : Int) : Bool :=
  match browser_fp with
  | none => false
  | some fp =>
    match alookup sm.trusted_browsers fp with
    | some trust_time => decide (now - trust_time < sm.browser_trust_duration)
    | none => false

/-- `SecurityManager.trust_browser`: record the session's fingerprint as
trusted at the current time (no-op when the session has no fingerprint). -/
def SecurityManager.trust_browser (sm : SecurityManager)
    (browser_fp : Option String) (now : Int) : SecurityManager :=
  match browser_fp with
  | some fp => { sm with trusted_browsers := ainsert sm.trusted_browsers fp now }
  | none => sm

/-- The numeric answer `generate_captcha` computes: for subtraction the
operands are swapped when `num1 < num2` so the result is non-negative. -/
def captcha_answer (num1 num2 : Int) (op : Operation) : Int :=
  match op with
  | .add => num1 + num2
  | .sub => if num1 < num2 then num2 - num1 else num1 - num2
  | .mul => num1 * num2

/-- The human-readable question string `generate_captcha` formats (after the
subtraction swap). -/
def captcha_question (num1 num2 : Int) (op : Operation) : String :=
  match op with
  | .add => toString num1 ++ " + " ++ toString num2
  | .sub =>
    if num1 < num2 then toString num2 ++ " - " ++ toString num1
    else toString num1 ++ " - " ++ toString num2
  | .mul => toString num1 ++ " × " ++ toString num2

/-- `SecurityManager.generate_captcha`: compute the answer and question from
the drawn operands and operator, store
`{'answer': answer, 'timestamp': now, 'browser_fp': session fp}` under the
drawn `captcha_id`, and return the id, question and timeout. -/
def SecurityManager.generate_captcha (sm : SecurityManager)
    (browser_fp : Option String) (num1 num2 : Int) (op : Operation)
    (captcha_id : String) (now : Int) : CaptchaResult × SecurityManager :=
  let data : CaptchaData :=
    { answer := captcha_answer num1 num2 op
      timestamp := now
      browser_fp := browser_fp }
  ({ captcha_id := captcha_id
     question := captcha_question num1 num2 op
     timeout := sm.captcha_timeout },
   { sm with captcha_sessions := ainsert sm.captcha_sessions captcha_id data })

/-- `SecurityManager.verify_captcha`: look the challenge up (absent → `false`
with no state change); past the timeout → delete it and return `false`;
stored fingerprint differs from the session's → delete it and return `false`;
non-numeric answer (`ValueError`) → delete it and return `false`; wrong
numeric answer → delete it and return `false`; correct answer → trust the
browser, delete the challenge and return `true`. -/
def SecurityManager.verify_captcha (sm : SecurityManager)
    (session_fp : Option String) (now : Int) (captcha_id : String)
    (user_answer : Option Int) : Bool × SecurityManager :=
  match alookup sm.captcha_sessions captcha_id with
  | none => (false, sm)
  | some captcha_data =>
    if sm.captcha_timeout < now - captcha_data.timestamp then
      (false, { sm with captcha_sessions := aerase sm.captcha_sessions captcha_id })
    else if captcha_data.browser_fp ≠ session_fp then
      (false, { sm with captcha_sessions := aerase sm.captcha_sessions captcha_id })
    else
      match user_answer with
      | none =>
        (false, { sm with captcha_sessions := aerase sm.captcha_sessions captcha_id })
      | some v =>
        if captcha_data.answer = v then
          let sm1 := sm.trust_browser session_fp now
          (true, { sm1 with captcha_sessions := aerase sm1.captcha_sessions captcha_id })
        else
          (false, { sm with captcha_sessions := aerase sm.captcha_sessions captcha_id })

/-- Modelled from the spec: `SecurityCoordinator.can_proceed` for the
protected action (spec §4.4). The session-embedded `SecurityManager` that
`app.py` imports (whose `can_proceed('identify')` guards the `/identify`
endpoint) is not under src/ — only its callers and tests are — so the gate
decision is modelled from the spec's words over the primitives embedded
above from src/security.py: if the identity is trusted the action is
allowed; otherwise, if the rate-limit check reports the identity as gated,
the action is refused with reason `captcha_required`; otherwise it is
allowed. -/
def SecurityManager.can_proceed (sm : SecurityManager) (key : String)
    (browser_fp : Option String) (now : Int) :
    (Bool × Option String) × SecurityManager :=
  if sm.is_browser_trusted browser_fp now then ((true, none), sm)
  else
    let res := sm.check_rate_limit key now
    if res.1 then ((false, some "captcha_required"), res.2)
    else ((true, none), res.2)

/-- Fold `record_request` over a list of request times (used to state claims
about arbitrarily many recorded requests). -/
def SecurityManager.record_many (sm : SecurityManager) (key : String) :
    List Int → SecurityManager
  | [] => sm
  | t :: ts => (sm.record_request key t).record_many key ts

/-! ### Helper lemmas about the store primitives -/

theorem alookup_aerase {α : Type} (l : List (String × α)) (key : String) :
    alookup (aerase l key) key = none := by
  induction l with
  | nil => rfl
  | cons hd tl ih =>
    obtain ⟨k, v⟩ := hd
    unfold aerase
    by_cases h : k = key
    · simpa [h] using ih
    · simpa [alookup, h] using ih

theorem alookup_ainsert_self {α : Type} (l : List (String × α)) (key : String)
    (v : α) : alookup (ainsert l key v) key = some v := by
  induction l with
  | nil => simp [ainsert, alookup]
  | cons hd tl ih =>
    obtain ⟨k, w⟩ := hd
    unfold ainsert
    by_cases h : k = key
    · simp [h, alookup]
    · simpa [alookup, h] using ih

theorem alookup_cleanupRequestCounts (window now : Int)
    (l : List (String × List Int)) (key : String) (ts : List Int)
    (hstored : alookup l key = some ts)
    (hne : ts.filter (fun t => decide (now - window < t)) ≠ []) :
    alookup (cleanupRequestCounts window now l) key
      = some (ts.filter (fun t => decide (now - window < t))) := by
  induction l with
  | nil => simp [alookup] at hstored
  | cons hd tl ih =>
    obtain ⟨k, us⟩ := hd
    unfold cleanupRequestCounts
    by_cases h : k = key
    · rw [alookup, if_pos h] at hstored
      obtain rfl : us = ts := by simpa using hstored
      rw [if_neg (by simpa [List.isEmpty_iff] using hne)]
      simp [alookup, h]
    · rw [alookup, if_neg h] at hstored
      by_cases hkept : (us.filter (fun t => decide (now - window < t))).isEmpty
      · rw [if_pos hkept]
        exact ih hstored
      · rw [if_neg hkept]
        rw [alookup, if_neg h]
        exact ih hstored

theorem trust_browser_captcha_sessions (sm : SecurityManager)
    (browser_fp : Option String) (now : Int) :
    (sm.trust_browser browser_fp now).captcha_sessions = sm.captcha_sessions := by
  cases browser_fp <;> rfl

/-- Whenever the looked-up challenge exists, `verify_captcha` deletes it:
every branch of the method after the lookup ends in `del`. -/
theorem verify_captcha_sessions_eq_erase (sm : SecurityManager)
    (session_fp : Option String) (now : Int) (captcha_id : String)
    (d : CaptchaData) (user_answer : Option Int)
    (hstored : alookup sm.captcha_sessions captcha_id = some d) :
    ((sm.verify_captcha session_fp now captcha_id user_answer).2).captcha_sessions
      = aerase sm.captcha_sessions captcha_id := by
  unfold SecurityManager.verify_captcha
  rw [hstored]
  by_cases hexp : sm.captcha_timeout < now - d.timestamp
  · simp [hexp]
  · by_cases hfp : d.browser_fp = session_fp
    · cases user_answer with
      | none => simp [hexp, hfp]
      | some v =>
        by_cases hans : d.answer = v
        · simp [hexp, hfp, hans, trust_browser_captcha_sessions]
        · simp [hexp, hfp, hans]
    · simp [hexp, hfp]

/-- `verify_captcha` on an id absent from the store returns `false` and
leaves the state unchanged. -/
theorem verify_captcha_absent (sm : SecurityManager)
    (session_fp : Option String) (now : Int) (captcha_id : String)
    (user_answer : Option Int)
    (habsent : alookup sm.captcha_sessions captcha_id = none) :
    sm.verify_captcha session_fp now captcha_id user_answer = (false, sm) := by
  unfold SecurityManager.verify_captcha
  rw [habsent]

theorem record_many_trusted_browsers (key : String) (ts : List Int)
    (sm : SecurityManager) :
    (sm.record_many key ts).trusted_browsers = sm.trusted_browsers := by
  induction ts generalizing sm with
  | nil => rfl
  | cons t ts ih => simpa [SecurityManager.record_many] using ih _

theorem record_many_trust_duration (key : String) (ts : List Int)
    (sm : SecurityManager) :
    (sm.record_many key ts).browser_trust_duration = sm.browser_trust_duration := by
  induction ts generalizing sm with
  | nil => rfl
  | cons t ts ih => simpa [SecurityManager.record_many] using ih _

theorem is_browser_trusted_record_many (sm : SecurityManager) (key : String)
    (ts : List Int) (browser_fp : Option String) (now : Int) :
    (sm.record_many key ts).is_browser_trusted browser_fp now
      = sm.is_browser_trusted browser_fp now := by
  unfold SecurityManager.is_browser_trusted
  rw [record_many_trusted_browsers, record_many_trust_duration]

/-! ### Claim C4 — what the challenge store holds for the answer -/

/-- Claim C4 counterexample: the record stored by `generate_captcha` for the
challenge `3 + 5` holds the plaintext numeric answer `8` itself — not a
one-way hash of its string form — refuting "the plaintext answer is never
stored". -/
theorem C4_counterexample :
    alookup ((SecurityManager.init.generate_captcha (some "fp") 3 5
      Operation.add "abc" 0).2).captcha_sessions "abc"
      = some { answer := 3 + 5, timestamp := 0, browser_fp := some "fp" } := by
  decide

/-- Claim C4 as amended: for every challenge record created by
`generate_captcha`, the store keeps the plaintext numeric answer directly in
its `answer` field (together with the issue timestamp and the session
fingerprint); no hash of the answer is computed anywhere. -/
theorem C4_plaintext_answer_stored (sm : SecurityManager)
    (browser_fp : Option String) (num1 num2 : Int) (op : Operation)
    (captcha_id : String) (now : Int) :
    alookup ((sm.generate_captcha browser_fp num1 num2 op captcha_id now).2).captcha_sessions
        captcha_id
      = some { answer := captcha_answer num1 num2 op, timestamp := now,
               browser_fp := browser_fp } := by
  unfold SecurityManager.generate_captcha
  exact alookup_ainsert_self _ _ _

/-! ### Claim C5 — side effects of issuing a challenge -/

/-- Claim C5 counterexample: starting from the initial state (no recorded
requests), issuing a challenge leaves the request store empty and the gate
decision for the identity is still `(true, none)` — the identity is not
gated after `issue()`, refuting "issuing sets `rate_limited = true`". -/
theorem C5_counterexample :
    ((SecurityManager.init.generate_captcha (some "fp") 3 5 Operation.add
        "abc" 0).2.can_proceed "k" (some "fp") 0).1 = (true, none) ∧
    (SecurityManager.init.generate_captcha (some "fp") 3 5 Operation.add
        "abc" 0).2.request_counts = [] := by
  decide

/-- Claim C5 as amended: `generate_captcha` has no side effect on the
rate-limit or trust state — it only stores the challenge record; both
`request_counts` and `trusted_browsers` are returned unchanged, so the
identity's gating status is exactly what it was before issuance. -/
theorem C5_generate_no_gating_side_effect (sm : SecurityManager)
    (browser_fp : Option String) (num1 num2 : Int) (op : Operation)
    (captcha_id : String) (now : Int) :
    ((sm.generate_captcha browser_fp num1 num2 op captcha_id now).2).request_counts
        = sm.request_counts ∧
    ((sm.generate_captcha browser_fp num1 num2 op captcha_id now).2).trusted_browsers
        = sm.trusted_browsers := by
  exact ⟨rfl, rfl⟩

/-! ### Claim C8 — generated answers are never negative -/

/-- Claim C8: for every generated challenge with operands drawn from
`randint(1, 10)` (so both at least 1), the numeric answer computed and
stored by `generate_captcha` is non-negative; for subtraction the operands
are swapped when needed so the result is never negative. -/
theorem C8_answer_nonneg (sm : SecurityManager) (browser_fp : Option String)
    (num1 num2 : Int) (op : Operation) (captcha_id : String) (now : Int)
    (h1 : 1 ≤ num1) (h2 : 1 ≤ num2) :
    alookup ((sm.generate_captcha browser_fp num1 num2 op captcha_id now).2).captcha_sessions
        captcha_id
      = some { answer := captcha_answer num1 num2 op, timestamp := now,
               browser_fp := browser_fp } ∧
    0 ≤ captcha_answer num1 num2 op := by
  constructor
  · unfold SecurityManager.generate_captcha
    exact alookup_ainsert_self _ _ _
  · cases op with
    | add => simp only [captcha_answer]; omega
    | sub => simp only [captcha_answer]; split <;> omega
    | mul =>
      simp only [captcha_answer]
      exact mul_nonneg (by omega) (by omega)

/-- Claim C8 witness: the subtraction challenge with operands 3 and 5. -/
theorem C8_answer_nonneg_witness :
    alookup ((SecurityManager.init.generate_captcha (some "fp") 3 5
        Operation.sub "abc" 0).2).captcha_sessions "abc"
      = some { answer := captcha_answer 3 5 Operation.sub, timestamp := 0,
               browser_fp := some "fp" } ∧
    0 ≤ captcha_answer 3 5 Operation.sub :=
  C8_answer_nonneg SecurityManager.init (some "fp") 3 5 Operation.sub "abc" 0
    (by decide) (by decide)

/-! ### Claim C9 — verification is bound to the issuing browser identity -/

/-- Claim C9: if the fingerprint recorded in a stored challenge differs from
the current session's fingerprint, `verify_captcha` deletes the challenge
from the store and returns failure, whatever answer is submitted — in
particular even the correct one. -/
theorem C9_fingerprint_binding (sm : SecurityManager)
    (session_fp : Option String) (now : Int) (captcha_id : String)
    (d : CaptchaData) (user_answer : Option Int)
    (hstored : alookup sm.captcha_sessions captcha_id = some d)
    (hfp : d.browser_fp ≠ session_fp) :
    (sm.verify_captcha session_fp now captcha_id user_answer).1 = false ∧
    alookup ((sm.verify_captcha session_fp now captcha_id user_answer).2).captcha_sessions
        captcha_id = none := by
  refine ⟨?_, ?_⟩
  · unfold SecurityManager.verify_captcha
    rw [hstored]
    by_cases hexp : sm.captcha_timeout < now - d.timestamp
    · simp [hexp]
    · simp [hexp, hfp]
  · rw [verify_captcha_sessions_eq_erase sm session_fp now captcha_id d
      user_answer hstored]
    exact alookup_aerase _ _

/-- Claim C9 witness: a stored challenge issued to fingerprint `fp`,
verified from a session with fingerprint `other` and the correct answer 8. -/
theorem C9_fingerprint_binding_witness :
    (({ SecurityManager.init with
        captcha_sessions := [("abc", ⟨8, 0, some "fp"⟩)] } :
      SecurityManager).verify_captcha (some "other") 1 "abc" (some 8)).1 = false ∧
    alookup ((({ SecurityManager.init with
        captcha_sessions := [("abc", ⟨8, 0, some "fp"⟩)] } :
      SecurityManager).verify_captcha (some "other") 1 "abc" (some 8)).2).captcha_sessions
        "abc" = none :=
  C9_fingerprint_binding _ (some "other") 1 "abc" ⟨8, 0, some "fp"⟩ (some 8)
    (by decide) (by decide)

/-! ### Claim C10 — every verify call consumes the looked-up challenge -/

/-- Claim C10: a `verify_captcha` call on a stored challenge id removes that
id from the store whatever the outcome (expired, fingerprint mismatch,
non-numeric answer, wrong answer, or correct answer), so a second
verification call on the same id — with any session, time and answer —
fails. -/
theorem C10_verify_consumes_challenge (sm : SecurityManager)
    (session_fp : Option String) (now : Int) (captcha_id : String)
    (d : CaptchaData) (user_answer : Option Int)
    (hstored : alookup sm.captcha_sessions captcha_id = some d) :
    alookup ((sm.verify_captcha session_fp now captcha_id user_answer).2).captcha_sessions
        captcha_id = none ∧
    ∀ (fp2 : Option String) (now2 : Int) (ans2 : Option Int),
      (((sm.verify_captcha session_fp now captcha_id user_answer).2).verify_captcha
          fp2 now2 captcha_id ans2).1 = false := by
  have herase :
      alookup ((sm.verify_captcha session_fp now captcha_id user_answer).2).captcha_sessions
        captcha_id = none := by
    rw [verify_captcha_sessions_eq_erase sm session_fp now captcha_id d
      user_answer hstored]
    exact alookup_aerase _ _
  refine ⟨herase, fun fp2 now2 ans2 => ?_⟩
  rw [verify_captcha_absent _ fp2 now2 captcha_id ans2 herase]

/-- Claim C10 witness: the stored challenge `"abc"` with a wrong answer,
then a second attempt with the correct answer. -/
theorem C10_verify_consumes_challenge_witness :
    alookup ((({ SecurityManager.init with
        captcha_sessions := [("abc", ⟨8, 0, some "fp"⟩)] } :
      SecurityManager).verify_captcha (some "fp") 1 "abc" (some 9)).2).captcha_sessions
        "abc" = none ∧
    ((({ SecurityManager.init with
        captcha_sessions := [("abc", ⟨8, 0, some "fp"⟩)] } :
      SecurityManager).verify_captcha (some "fp") 1 "abc" (some 9)).2.verify_captcha
        (some "fp") 2 "abc" (some (8 : Int))).1 = false :=
  ⟨(C10_verify_consumes_challenge _ (some "fp") 1 "abc" ⟨8, 0, some "fp"⟩
      (some 9) (by decide)).1,
   (C10_verify_consumes_challenge _ (some "fp") 1 "abc" ⟨8, 0, some "fp"⟩
      (some 9) (by decide)).2 (some "fp") 2 (some 8)⟩

/-! ### Claim C7 — expiry of stored challenges -/

/-- Claim C7 counterexample: the expiry comparison in `verify_captcha` is
strict (`now - timestamp > captcha_timeout`), so at the instant
`now = expires_at` — here `now = 300` for a challenge issued at 0 with a
300-second timeout — the correct answer still succeeds, refuting "the
challenge is already unacceptable at the instant now equals expires_at". -/
theorem C7_counterexample :
    (({ SecurityManager.init with
        captcha_sessions := [("abc", ⟨8, 0, some "fp"⟩)] } :
      SecurityManager).verify_captcha (some "fp") 300 "abc" (some 8)).1 = true := by
  decide

/-- Claim C7 as amended: for every stored challenge and verification time
strictly past the timeout (`now - timestamp > captcha_timeout`, i.e.
`now > expires_at`), `verify_captcha` purges the challenge and returns
failure even when the submitted answer is correct; at `now = expires_at`
exactly the challenge is still acceptable. -/
theorem C7_expired_purged (sm : SecurityManager) (session_fp : Option String)
    (now : Int) (captcha_id : String) (d : CaptchaData)
    (user_answer : Option Int)
    (hstored : alookup sm.captcha_sessions captcha_id = some d)
    (hexp : sm.captcha_timeout < now - d.timestamp) :
    (sm.verify_captcha session_fp now captcha_id user_answer).1 = false ∧
    alookup ((sm.verify_captcha session_fp now captcha_id user_answer).2).captcha_sessions
        captcha_id = none := by
  refine ⟨?_, ?_⟩
  · unfold SecurityManager.verify_captcha
    rw [hstored]
    simp [hexp]
  · rw [verify_captcha_sessions_eq_erase sm session_fp now captcha_id d
      user_answer hstored]
    exact alookup_aerase _ _

/-- Claim C7 witness: a challenge issued at 0 with timeout 300, verified at
time 301 with the correct answer 8. -/
theorem C7_expired_purged_witness :
    (({ SecurityManager.init with
        captcha_sessions := [("abc", ⟨8, 0, some "fp"⟩)] } :
      SecurityManager).verify_captcha (some "fp") 301 "abc" (some 8)).1 = false ∧
    alookup ((({ SecurityManager.init with
        captcha_sessions := [("abc", ⟨8, 0, some "fp"⟩)] } :
      SecurityManager).verify_captcha (some "fp") 301 "abc" (some 8)).2).captcha_sessions
        "abc" = none :=
  C7_expired_purged _ (some "fp") 301 "abc" ⟨8, 0, some "fp"⟩ (some 8)
    (by decide) (by decide)

/-! ### Claim C1 — wrong answers and attempt counting -/

/-- Claim C1 counterexample: after a single wrong answer (which under the
claim's `max_attempts = 3` regime would leave `attempts = 1 < 3` and the
challenge live), the challenge is already gone from the store — refuting
"returns IncorrectAnswer with the challenge remaining stored and acceptable
for further attempts". -/
theorem C1_counterexample :
    (({ SecurityManager.init with
        captcha_sessions := [("abc", ⟨8, 0, some "fp"⟩)] } :
      SecurityManager).verify_captcha (some "fp") 1 "abc" (some 9)).1 = false ∧
    alookup ((({ SecurityManager.init with
        captcha_sessions := [("abc", ⟨8, 0, some "fp"⟩)] } :
      SecurityManager).verify_captcha (some "fp") 1 "abc" (some 9)).2).captcha_sessions
        "abc" = none := by
  decide

/-- Claim C1 as amended: `SecurityManager.verify_captcha` keeps no attempts
counter — a single wrong answer to a live, fingerprint-matching, unexpired
challenge purges the challenge immediately and returns failure, and every
further call on the same id (with any session, time and answer) fails
because the challenge no longer exists; each issued challenge admits at
most one verification attempt, and the only outcomes are success and
failure (no IncorrectAnswer / TooManyAttempts distinction). -/
theorem C1_wrong_answer_purges (sm : SecurityManager) (session_fp : Option String)
    (now : Int) (captcha_id : String) (d : CaptchaData) (ans : Int)
    (hstored : alookup sm.captcha_sessions captcha_id = some d)
    (hexp : ¬ sm.captcha_timeout < now - d.timestamp)
    (hfp : d.browser_fp = session_fp)
    (hwrong : d.answer ≠ ans) :
    (sm.verify_captcha session_fp now captcha_id (some ans)).1 = false ∧
    alookup ((sm.verify_captcha session_fp now captcha_id (some ans)).2).captcha_sessions
        captcha_id = none ∧
    ∀ (fp2 : Option String) (now2 : Int) (ans2 : Option Int),
      (((sm.verify_captcha session_fp now captcha_id (some ans)).2).verify_captcha
          fp2 now2 captcha_id ans2).1 = false := by
  have herase :
      alookup ((sm.verify_captcha session_fp now captcha_id (some ans)).2).captcha_sessions
        captcha_id = none := by
    rw [verify_captcha_sessions_eq_erase sm session_fp now captcha_id d
      (some ans) hstored]
    exact alookup_aerase _ _
  refine ⟨?_, herase, fun fp2 now2 ans2 => ?_⟩
  · unfold SecurityManager.verify_captcha
    rw [hstored]
    simp [hexp, hfp, hwrong]
  · rw [verify_captcha_absent _ fp2 now2 captcha_id ans2 herase]

/-- Claim C1 witness: the challenge `"abc"` with correct answer 8, answered
wrongly with 9 at time 1. -/
theorem C1_wrong_answer_purges_witness :
    (({ SecurityManager.init with
        captcha_sessions := [("abc", ⟨8, 0, some "fp"⟩)] } :
      SecurityManager).verify_captcha (some "fp") 1 "abc" (some 9)).1 = false ∧
    alookup ((({ SecurityManager.init with
        captcha_sessions := [("abc", ⟨8, 0, some "fp"⟩)] } :
      SecurityManager).verify_captcha (some "fp") 1 "abc" (some 9)).2).captcha_sessions
        "abc" = none ∧
    ((({ SecurityManager.init with
        captcha_sessions := [("abc", ⟨8, 0, some "fp"⟩)] } :
      SecurityManager).verify_captcha (some "fp") 1 "abc" (some 9)).2.verify_captcha
        (some "fp") 2 "abc" (some (8 : Int))).1 = false :=
  ⟨(C1_wrong_answer_purges _ (some "fp") 1 "abc" ⟨8, 0, some "fp"⟩ 9
      (by decide) (by decide) (by decide) (by decide)).1,
   (C1_wrong_answer_purges _ (some "fp") 1 "abc" ⟨8, 0, some "fp"⟩ 9
      (by decide) (by decide) (by decide) (by decide)).2.1,
   (C1_wrong_answer_purges _ (some "fp") 1 "abc" ⟨8, 0, some "fp"⟩ 9
      (by decide) (by decide) (by decide) (by decide)).2.2 (some "fp") 2
     (some 8)⟩

/-! ### More helper lemmas: rate-limit check and record_request -/

theorem is_browser_trusted_record_request (sm : SecurityManager) (key : String)
    (t : Int) (browser_fp : Option String) (now : Int) :
    (sm.record_request key t).is_browser_trusted browser_fp now
      = sm.is_browser_trusted browser_fp now := rfl

/-- The rate-limit check reports `true` whenever the key's stored request
list survives the window filter intact and its length has reached the
threshold. -/
theorem check_rate_limit_true (sm : SecurityManager) (key : String) (now : Int)
    (ts : List Int)
    (hstored : alookup sm.request_counts key = some ts)
    (hkeep : ts.filter (fun t => decide (now - sm.rate_limit_window < t)) = ts)
    (hne : ts ≠ [])
    (hlen : sm.max_requests_per_window ≤ ts.length) :
    (sm.check_rate_limit key now).1 = true := by
  have hclean :
      alookup (cleanupRequestCounts sm.rate_limit_window now sm.request_counts) key
        = some ts := by
    have h := alookup_cleanupRequestCounts sm.rate_limit_window now
      sm.request_counts key ts hstored (by rw [hkeep]; exact hne)
    rwa [hkeep] at h
  simp [SecurityManager.check_rate_limit, SecurityManager.cleanup_old_entries,
    hclean, hkeep, hlen]

/-! ### Claim C2 — effects of a successful verification -/

/-- Claim C2 counterexample: a successful verification does not reset the
rate-limit state: starting with two recorded requests for the identity's
key, the correct answer returns `true` and trusts the browser, yet the
request list still holds both entries and the rate-limit check still
reports the identity as limited — refuting "sets `rate_limited = false`
and `request_count = 0`". -/
theorem C2_counterexample :
    (({ SecurityManager.init with
        captcha_sessions := [("abc", ⟨8, 0, some "fp"⟩)],
        request_counts := [("k", [10, 20])] } :
      SecurityManager).verify_captcha (some "fp") 100 "abc" (some 8)).1 = true ∧
    alookup ((({ SecurityManager.init with
        captcha_sessions := [("abc", ⟨8, 0, some "fp"⟩)],
        request_counts := [("k", [10, 20])] } :
      SecurityManager).verify_captcha (some "fp") 100 "abc" (some 8)).2).request_counts
        "k" = some [10, 20] ∧
    ((({ SecurityManager.init with
        captcha_sessions := [("abc", ⟨8, 0, some "fp"⟩)],
        request_counts := [("k", [10, 20])] } :
      SecurityManager).verify_captcha (some "fp") 100 "abc" (some 8)).2.check_rate_limit
        "k" 100).1 = true := by
  decide

/-- Claim C2 as amended: on a correct answer for a stored, unexpired,
fingerprint-matching challenge, `verify_captcha` purges the challenge,
records the session's fingerprint as trusted at time `now` (so
`is_browser_trusted` holds while the trust duration is positive), and
returns `true`; it leaves `request_counts` unchanged — there is no
`request_count = 0` reset and no `rate_limited = false` flag; the design
instead bypasses the rate check while the trust entry lasts. -/
theorem C2_success_trusts_browser (sm : SecurityManager) (f : String)
    (now : Int) (captcha_id : String) (d : CaptchaData)
    (hstored : alookup sm.captcha_sessions captcha_id = some d)
    (hexp : ¬ sm.captcha_timeout < now - d.timestamp)
    (hfp : d.browser_fp = some f)
    (hdur : 0 < sm.browser_trust_duration) :
    (sm.verify_captcha (some f) now captcha_id (some d.answer)).1 = true ∧
    alookup ((sm.verify_captcha (some f) now captcha_id (some d.answer)).2).captcha_sessions
        captcha_id = none ∧
    alookup ((sm.verify_captcha (some f) now captcha_id (some d.answer)).2).trusted_browsers
        f = some now ∧
    ((sm.verify_captcha (some f) now captcha_id (some d.answer)).2).is_browser_trusted
        (some f) now = true ∧
    ((sm.verify_captcha (some f) now captcha_id (some d.answer)).2).request_counts
        = sm.request_counts := by
  have hres : sm.verify_captcha (some f) now captcha_id (some d.answer)
      = (true,
         { sm with
           trusted_browsers := ainsert sm.trusted_browsers f now,
           captcha_sessions :=
             aerase sm.captcha_sessions captcha_id }) := by
    unfold SecurityManager.verify_captcha
    rw [hstored]
    simp [hexp, hfp, SecurityManager.trust_browser]
  rw [hres]
  refine ⟨rfl, alookup_aerase _ _, alookup_ainsert_self _ _ _, ?_, rfl⟩
  simp [SecurityManager.is_browser_trusted, alookup_ainsert_self]
  omega

/-- Claim C2 witness: challenge `"abc"` answered correctly at time 100 by
the session that was issued it, with two requests already recorded. -/
theorem C2_success_trusts_browser_witness :
    (({ SecurityManager.init with
        captcha_sessions := [("abc", ⟨8, 0, some "fp"⟩)],
        request_counts := [("k", [10, 20])] } :
      SecurityManager).verify_captcha (some "fp") 100 "abc"
        (some (8 : Int))).1 = true ∧
    alookup ((({ SecurityManager.init with
        captcha_sessions := [("abc", ⟨8, 0, some "fp"⟩)],
        request_counts := [("k", [10, 20])] } :
      SecurityManager).verify_captcha (some "fp") 100 "abc"
        (some (8 : Int))).2).captcha_sessions "abc" = none ∧
    alookup ((({ SecurityManager.init with
        captcha_sessions := [("abc", ⟨8, 0, some "fp"⟩)],
        request_counts := [("k", [10, 20])] } :
      SecurityManager).verify_captcha (some "fp") 100 "abc"
        (some (8 : Int))).2).trusted_browsers "fp" = some 100 ∧
    ((({ SecurityManager.init with
        captcha_sessions := [("abc", ⟨8, 0, some "fp"⟩)],
        request_counts := [("k", [10, 20])] } :
      SecurityManager).verify_captcha (some "fp") 100 "abc"
        (some (8 : Int))).2).is_browser_trusted (some "fp") 100 = true ∧
    ((({ SecurityManager.init with
        captcha_sessions := [("abc", ⟨8, 0, some "fp"⟩)],
        request_counts := [("k", [10, 20])] } :
      SecurityManager).verify_captcha (some "fp") 100 "abc"
        (some (8 : Int))).2).request_counts
      = ({ SecurityManager.init with
        captcha_sessions := [("abc", ⟨8, 0, some "fp"⟩)],
        request_counts := [("k", [10, 20])] } :
      SecurityManager).request_counts :=
  C2_success_trusts_browser _ "fp" 100 "abc" ⟨8, 0, some "fp"⟩
    (by decide) (by decide) (by decide) (by decide)

/-! ### Claim C3 — is trust permanent for the session? -/

/-- Claim C3 counterexample: trust is revoked by the passage of time.
A verification succeeds at time 0; two requests are recorded; at
`now = 2592000` (exactly `browser_trust_duration` later, with no state
cleared), `can_proceed` answers `(false, "captcha_required")` instead of
the claimed `(true, null)`. -/
theorem C3_counterexample :
    (({ SecurityManager.init with
        captcha_sessions := [("abc", ⟨8, 0, some "fp"⟩)] } :
      SecurityManager).verify_captcha (some "fp") 0 "abc" (some 8)).1 = true ∧
    ((((({ SecurityManager.init with
        captcha_sessions := [("abc", ⟨8, 0, some "fp"⟩)] } :
      SecurityManager).verify_captcha (some "fp") 0 "abc"
        (some 8)).2.record_request "k" 2591990).record_request "k"
        2591995).can_proceed "k" (some "fp") 2592000).1
      = (false, some "captcha_required") := by
  decide

/-- Claim C3 as amended: trust is sticky only within
`browser_trust_duration` of the trust timestamp: while
`now - trust_time < browser_trust_duration`, `can_proceed` returns
`(true, none)` for the trusted fingerprint no matter how many
`record_request` calls intervene; once `now - trust_time` reaches the
duration the identity is no longer trusted (and `_cleanup_old_entries`
deletes the entry), so trust is *not* kept until session state is
cleared. -/
theorem C3_trust_sticky_within_duration (sm : SecurityManager) (key f : String)
    (trust_time now : Int) (ts : List Int)
    (hf : alookup sm.trusted_browsers f = some trust_time)
    (hdur : now - trust_time < sm.browser_trust_duration) :
    ((sm.record_many key ts).can_proceed key (some f) now).1 = (true, none) := by
  have htrust : (sm.record_many key ts).is_browser_trusted (some f) now = true := by
    rw [is_browser_trusted_record_many]
    simp [SecurityManager.is_browser_trusted, hf, hdur]
  simp [SecurityManager.can_proceed, htrust]

/-- Claim C3 witness: a browser trusted at time 5, with three further
requests recorded, queried at time 100. -/
theorem C3_trust_sticky_within_duration_witness :
    ((({ SecurityManager.init with
        trusted_browsers := [("fp", 5)] } :
      SecurityManager).record_many "k" [10, 20, 30]).can_proceed "k"
        (some "fp") 100).1 = (true, none) :=
  C3_trust_sticky_within_duration _ "k" "fp" 5 100 [10, 20, 30]
    (by decide) (by decide)

/-! ### Claim C6 — the threshold triggers the gate -/

/-- Claim C6: with `max_requests_per_window = 2`, for an untrusted identity
with no prior recorded requests, after exactly two `record_request` calls
whose timestamps fall inside the rate-limit window the gate decision is
`(false, "captcha_required")` — the rate-limit check reports `true` as
soon as the recorded count reaches the threshold. (The gate decision
`can_proceed` is modelled from the spec; the counting primitives are
embedded from src/security.py.) -/
theorem C6_threshold_triggers_gate (sm : SecurityManager) (key : String)
    (browser_fp : Option String) (t1 t2 now : Int)
    (hmax : sm.max_requests_per_window = 2)
    (htrust : sm.is_browser_trusted browser_fp now = false)
    (hnone : alookup sm.request_counts key = none)
    (h1 : now - sm.rate_limit_window < t1)
    (h2 : now - sm.rate_limit_window < t2) :
    (((sm.record_request key t1).record_request key t2).can_proceed key
        browser_fp now).1 = (false, some "captcha_required") := by
  have hrc : ((sm.record_request key t1).record_request key t2).request_counts
      = ainsert (ainsert sm.request_counts key [t1]) key [t1, t2] := by
    simp [SecurityManager.record_request, hnone, alookup_ainsert_self]
  have hstored2 :
      alookup ((sm.record_request key t1).record_request key t2).request_counts key
        = some [t1, t2] := by
    rw [hrc]
    exact alookup_ainsert_self _ _ _
  have hkeep : List.filter
      (fun t => decide (now - sm.rate_limit_window < t)) [t1, t2]
      = [t1, t2] := by
    simp [List.filter, h1, h2]
  have hlimited :
      (((sm.record_request key t1).record_request key t2).check_rate_limit key
        now).1 = true := by
    refine check_rate_limit_true _ key now [t1, t2] hstored2 hkeep
      (by simp) ?_
    show sm.max_requests_per_window ≤ 2
    rw [hmax]
  have htrust2 :
      ((sm.record_request key t1).record_request key t2).is_browser_trusted
        browser_fp now = false := by
    rw [is_browser_trusted_record_request, is_browser_trusted_record_request]
    exact htrust
  simp [SecurityManager.can_proceed, htrust2, hlimited]

/-- Claim C6 witness: two requests at times 10 and 20, gate queried at time
100 with the default one-hour window and threshold 2. -/
theorem C6_threshold_triggers_gate_witness :
    (((SecurityManager.init.record_request "k" 10).record_request "k"
        20).can_proceed "k" (some "f") 100).1
      = (false, some "captcha_required") :=
  C6_threshold_triggers_gate SecurityManager.init "k" (some "f") 10 20 100
    (by decide) (by decide) (by decide) (by decide) (by decide)

end WildID
